import Mathlib

/-!
Verification of the client-side orchestration core: a synchronous bridge over an
asynchronous backend client (`_WSGIClient` / `OrionClient` in
`src/prefect/client.py`) and the run-view snapshot cache (`FlowRunView`, whose
implementation is exercised by `tests/backend/test_flow_run.py`).

Part A models the Run View Cache.  Its implementation file is not part of the
source tree (only its tests are), so these definitions are modelled from the
specification, with the tests fixing the concrete data shapes.

Part B embeds `OrionClient` and `_WSGIClient` from `src/prefect/client.py`.
-/

/- ### Part A: run states and snapshots (Run View Cache) -/

/-- Modelled from the spec: the status band of a Run State — a tagged variant
representing execution status (Pending, Running, Success, Failed, ...).  The
flow-run view implementation is absent from the source tree; the test file uses
exactly the `Success` and `Running` variants. -/
inductive StateKind where
  | Pending
  | Running
  | Success
  | Failed
deriving DecidableEq

/-- Modelled from the spec: a Run State carries a kind, a human-readable
message, and an opaque result payload; equality is structural. -/
structure RunState where
  kind : StateKind
  message : String
  result : Option String
deriving DecidableEq

/-- Modelled from the spec: terminal ("static") states are the closed,
non-retryable band — Success and Failed; Pending and Running are in-progress. -/
def RunState.isFinished (s : RunState) : Bool :=
  match s.kind with
  | .Success => true
  | .Failed => true
  | _ => false

/-- Modelled from the spec: the opaque serialized form a Run State is decoded
from, as produced by `State.serialize()` in the test fixtures — a tagged record
naming the state type and carrying the message and payload. -/
structure SerializedState where
  type : String
  message : String
  result : Option String
deriving DecidableEq

/-- Modelled from the spec: decoding a serialized state into a Run State
variant; an unrecognized type tag fails to decode. -/
def deserialize_state (s : SerializedState) : Option RunState :=
  match s.type with
  | "Pending" => some { kind := .Pending, message := s.message, result := s.result }
  | "Running" => some { kind := .Running, message := s.message, result := s.result }
  | "Success" => some { kind := .Success, message := s.message, result := s.result }
  | "Failed" => some { kind := .Failed, message := s.message, result := s.result }
  | _ => none

/-- Modelled from the spec: the raw flow-run record returned by the backend
lookup query, with the fixed selection set `id, name, serialized_state,
flow_id` (see `test_flow_run_view_query_for_flow_run_includes_all_required_data`). -/
structure FlowRunData where
  id : String
  name : String
  flow_id : String
  serialized_state : SerializedState
deriving DecidableEq

/-- Modelled from the spec: the nested `task` record of a task-run query
result (task identifier and slug). -/
structure TaskData where
  id : String
  slug : String
deriving DecidableEq

/-- Modelled from the spec: the raw task-run record returned by the backend
task-run query, matching the fixture shape in the tests. -/
structure TaskRunData where
  id : String
  name : String
  task : TaskData
  map_index : String
  serialized_state : SerializedState
  flow_run_id : String
deriving DecidableEq

/-- Modelled from the spec: a Task Run Snapshot — identifier, display name,
task identifier/slug, map-index, owning flow-run identifier, and the Run State
decoded at construction time. -/
structure TaskRunView where
  task_run_id : String
  name : String
  task_id : String
  task_slug : String
  map_index : String
  flow_run_id : String
  state : RunState
deriving DecidableEq

/-- Modelled from the spec: constructing a Task Run Snapshot from a raw record;
the serialized state is decoded eagerly and construction fails if it does not
decode. -/
def TaskRunView.from_task_run_data (d : TaskRunData) : Option TaskRunView :=
  match deserialize_state d.serialized_state with
  | none => none
  | some st =>
    some { task_run_id := d.id, name := d.name, task_id := d.task.id,
           task_slug := d.task.slug, map_index := d.map_index,
           flow_run_id := d.flow_run_id, state := st }

/-- Modelled from the spec: a Flow Run Snapshot — identifier, display name,
parent flow identifier, Run State at capture time, and a mapping from task-run
identifier to cached Task Run Snapshot. -/
structure FlowRunView where
  flow_run_id : String
  name : String
  flow_id : String
  state : RunState
  cached_task_runs : List (String × TaskRunView)
deriving DecidableEq

/-- Modelled from the spec: validation errors of the flow-run lookup query
(`query_for_flow_run`): a malformed top-level shape, an empty result set, or a
non-unique result set carrying the offending count. -/
inductive QueryError where
  | badResult
  | notFound
  | multipleFound (count : Nat)
deriving DecidableEq

/-- Modelled from the spec: strict fail-fast validation of the backend response
to the flow-run lookup.  `none` models a response whose top-level shape is
missing the expected key; otherwise the result list is checked to be a
singleton and its single element returned unchanged. -/
def query_for_flow_run {α : Type} (response : Option (List α)) : Except QueryError α :=
  match response with
  | none => .error .badResult
  | some [] => .error .notFound
  | some [x] => .ok x
  | some l => .error (.multipleFound l.length)

/-- Modelled from the spec: errors of snapshot construction — a failed flow-run
lookup, a malformed task-run bulk query, or a state that fails to decode. -/
inductive ViewError where
  | query (e : QueryError)
  | taskQuery (e : QueryError)
  | stateDecode
deriving DecidableEq

/-- Modelled from the spec: constructing a Flow Run Snapshot from a validated
single result, with a given starting child cache; the state field is decoded
eagerly at construction time. -/
def FlowRunView.from_flow_run_data (d : FlowRunData)
    (cached : List (String × TaskRunView)) : Option FlowRunView :=
  match deserialize_state d.serialized_state with
  | none => none
  | some st =>
    some { flow_run_id := d.id, name := d.name, flow_id := d.flow_id,
           state := st, cached_task_runs := cached }

/-- Modelled from the spec: the static-children load — from the bulk task-run
query results, keep exactly the task-runs whose decoded state is terminal and
key them by task-run identifier. -/
def load_static_task_runs (tasks : List TaskRunData) : List (String × TaskRunView) :=
  (((tasks.filterMap TaskRunView.from_task_run_data).filter
      (fun trv => trv.state.isFinished)).map
    (fun trv => (trv.task_run_id, trv)))

/-- Modelled from the spec: `from_flow_run_id` — validate the flow-run lookup
response, optionally run the static-children load over the task-run bulk query
response, and construct the snapshot.  The backend responses are passed in
explicitly (the network layer is out of scope). -/
def FlowRunView.from_flow_run_id (flowRunResp : Option (List FlowRunData))
    (taskResp : Option (List TaskRunData)) (load_static_tasks : Bool) :
    Except ViewError FlowRunView :=
  match query_for_flow_run flowRunResp with
  | .error e => .error (.query e)
  | .ok d =>
    match (if load_static_tasks then taskResp.map load_static_task_runs else some []) with
    | none => .error (.taskQuery .badResult)
    | some cached =>
      match FlowRunView.from_flow_run_data d cached with
      | none => .error .stateDecode
      | some v => .ok v

/-- Modelled from the spec: refresh (`get_latest`) — re-run the identifier
lookup (its fresh response passed in explicitly), build a brand-new snapshot
from the fresh record, and carry the existing child-run map into it. -/
def FlowRunView.get_latest (v : FlowRunView)
    (freshResp : Option (List FlowRunData)) : Except ViewError FlowRunView :=
  match query_for_flow_run freshResp with
  | .error e => .error (.query e)
  | .ok d =>
    match FlowRunView.from_flow_run_data d v.cached_task_runs with
    | none => .error .stateDecode
    | some v2 => .ok v2

/-- Modelled from the spec: the refresh call in state-passing form.  A method
on a snapshot object is embedded as a function returning the post-call state of
the receiver alongside the produced value; `get_latest` only reads the
receiver, so the receiver it returns is the one it was given. -/
def FlowRunView.get_latest_call (v : FlowRunView)
    (freshResp : Option (List FlowRunData)) :
    Except ViewError (FlowRunView × FlowRunView) :=
  (v.get_latest freshResp).map (fun v2 => (v, v2))

/- Concrete fixtures mirroring the test data in `tests/backend/test_flow_run.py`. -/

/-- Fixture: `FLOW_RUN_DATA_1` from the tests. -/
def flowRunData1 : FlowRunData :=
  { id := "id-1", name := "name-1", flow_id := "flow_id-1",
    serialized_state := { type := "Success", message := "state-1", result := none } }

/-- Fixture: `FLOW_RUN_DATA_2` from the tests. -/
def flowRunData2 : FlowRunData :=
  { id := "id-2", name := "name-2", flow_id := "flow_id-2",
    serialized_state := { type := "Success", message := "state-2", result := none } }

/-- Fixture: `TASK_RUN_DATA_FINISHED` from the tests. -/
def taskRunDataFinished : TaskRunData :=
  { id := "task-run-id-1", name := "name-1",
    task := { id := "task-id-1", slug := "task-slug-1" },
    map_index := "map_index-1",
    serialized_state := { type := "Success", message := "state-1", result := none },
    flow_run_id := "flow_run_id-1" }

/-- Fixture: `TASK_RUN_DATA_RUNNING` from the tests. -/
def taskRunDataRunning : TaskRunData :=
  { id := "task-run-id-2", name := "name-2",
    task := { id := "task-id-2", slug := "task-slug-2" },
    map_index := "map_index-2",
    serialized_state := { type := "Running", message := "state-2", result := none },
    flow_run_id := "flow_run_id-2" }

/-- Fixture: the Task Run Snapshot built from `TASK_RUN_DATA_FINISHED`. -/
def sampleTaskRunView : TaskRunView :=
  { task_run_id := "task-run-id-1", name := "name-1", task_id := "task-id-1",
    task_slug := "task-slug-1", map_index := "map_index-1",
    flow_run_id := "flow_run_id-1",
    state := { kind := .Success, message := "state-1", result := none } }

/-- Fixture: the Flow Run Snapshot built from `FLOW_RUN_DATA_1` with the static
children loaded from the two task-run fixtures. -/
def sampleView : FlowRunView :=
  { flow_run_id := "id-1", name := "name-1", flow_id := "flow_id-1",
    state := { kind := .Success, message := "state-1", result := none },
    cached_task_runs := [("task-run-id-1", sampleTaskRunView)] }

/-- Fixture: the Flow Run Snapshot produced by refreshing `sampleView` against
a backend now returning `FLOW_RUN_DATA_2`. -/
def sampleView2 : FlowRunView :=
  { flow_run_id := "id-2", name := "name-2", flow_id := "flow_id-2",
    state := { kind := .Success, message := "state-2", result := none },
    cached_task_runs := [("task-run-id-1", sampleTaskRunView)] }

example : FlowRunView.from_flow_run_id (some [flowRunData1])
    (some [taskRunDataFinished, taskRunDataRunning]) true = .ok sampleView := by rfl

example : FlowRunView.get_latest_call sampleView (some [flowRunData2]) =
    .ok (sampleView, sampleView2) := by rfl

/- ### Part B: `OrionClient` and `_WSGIClient` from `src/prefect/client.py` -/

/-- A backend HTTP response: a status code and a body (the relevant part of the
parsed JSON, abstracted over its shape per endpoint). -/
structure Response (β : Type) where
  status : Nat
  body : β

/-- Errors raised by `OrionClient` operations: the `httpx.HTTPStatusError`
raised by `raise_for_status`, the `Malformed response` exception raised when
the `id` field is missing or falsy, and the `ValueError` raised by `UUID(...)`
on a malformed identifier string. -/
inductive ClientError where
  | httpStatus (status : Nat)
  | malformedResponse
  | invalidUUID
deriving DecidableEq

/-- Modelled from the external `httpx` library: `Response.raise_for_status`
raises an `HTTPStatusError` exactly for 4xx and 5xx status codes. -/
def raise_for_status (status : Nat) : Except Nat Unit :=
  if 400 ≤ status ∧ status < 600 then .error status else .ok ()

/-- `OrionClient.get`: perform the request and `raise_for_status` before
returning the response. -/
def OrionClient.get {β : Type} (r : Response β) : Except ClientError (Response β) :=
  match raise_for_status r.status with
  | .error s => .error (.httpStatus s)
  | .ok _ => .ok r

/-- `OrionClient.post`: perform the request and `raise_for_status` before
returning the response. -/
def OrionClient.post {β : Type} (r : Response β) : Except ClientError (Response β) :=
  match raise_for_status r.status with
  | .error s => .error (.httpStatus s)
  | .ok _ => .ok r

/-- `OrionClient.read_flow`: `get` the flow route and build the flow
descriptor from the response body (`schemas.core.Flow(**response.json())`). -/
def OrionClient.read_flow {β : Type} (r : Response β) : Except ClientError β :=
  match OrionClient.get r with
  | .error e => .error e
  | .ok resp => .ok resp.body

/-- Modelled from the Python standard library (external to this repository):
`uuid.UUID(s)` accepts a string of 32 hexadecimal digits, hyphens ignored, and
raises `ValueError` otherwise. -/
def isUUIDHex (s : String) : Bool :=
  let hexDigits := s.toList.filter (fun c => c ≠ '-')
  hexDigits.length == 32 && hexDigits.all (fun c =>
    c.isDigit || ("abcdefABCDEF".toList.contains c))

/-- The shared tail of `create_flow` and `create_flow_run`:
`response.json().get("id")` (`none` models an absent or JSON-null field), the
truthiness check `if not flow_id: raise Exception("Malformed response ...")`
(an empty string is falsy), then `UUID(flow_id)`. -/
def parse_id_field (idField : Option String) : Except ClientError String :=
  match idField with
  | none => .error .malformedResponse
  | some s =>
    if s = "" then .error .malformedResponse
    else if isUUIDHex s then .ok s
    else .error .invalidUUID

/-- `OrionClient.create_flow`, from the point the `POST /flows/` response is in
hand: `post` raises on bad status, then the `id` field is extracted, checked
for truthiness, and parsed as a UUID. -/
def OrionClient.create_flow (resp : Response (Option String)) :
    Except ClientError String :=
  match OrionClient.post resp with
  | .error e => .error e
  | .ok r => parse_id_field r.body

/-- `OrionClient.create_flow_run`, from the point the `POST /flow_runs/`
response is in hand: identical id extraction to `create_flow`. -/
def OrionClient.create_flow_run (resp : Response (Option String)) :
    Except ClientError String :=
  match OrionClient.post resp with
  | .error e => .error e
  | .ok r => parse_id_field r.body

namespace Prefect

/-- A flow descriptor as consumed by `create_flow_run` (name, version, tags,
default parameters). -/
structure Flow where
  name : String
  version : String
  tags : List String
  parameters : List (String × String)

end Prefect

/-- The `FlowRunCreate` action payload built by `create_flow_run` (mappings
embedded as association lists). -/
structure FlowRunCreate where
  flow_id : String
  flow_version : String
  parameters : List (String × String)
  context : List (String × String)
  tags : List String
  parent_task_run_id : Option String

/-- The payload construction inside `OrionClient.create_flow_run`:
`tags = set(flow.tags).union(extra_tags or [])` (embedded as a deduplicated
append, since the Python set fixes membership but not order),
`parameters = parameters or {}`, `context = context or {}`. -/
def OrionClient.flow_run_create_data (flow : Prefect.Flow) (flow_id : String)
    (parameters : Option (List (String × String)))
    (context : Option (List (String × String)))
    (extra_tags : Option (List String))
    (parent_task_run_id : Option String) : FlowRunCreate :=
  { flow_id := flow_id,
    flow_version := flow.version,
    parameters := parameters.getD [],
    context := context.getD [],
    tags := (flow.tags ++ (extra_tags.getD [])).dedup,
    parent_task_run_id := parent_task_run_id }

/-- The lifecycle of the `_WSGIClient` background event loop: `_event_loop` not
yet assigned, assigned but not running (before the thread has started it or
after `__del__` stopped it), or running. -/
inductive LoopState where
  | notCreated
  | stopped
  | running
deriving DecidableEq

/-- Errors surfaced by `_WSGIClient._run_coro`: the two `ValueError`s guarding
the loop state, or an exception raised by the awaited coroutine itself. -/
inductive BridgeError (ε : Type) where
  | loopNotCreated
  | loopNotRunning
  | coro (e : ε)
deriving DecidableEq

/-- `_WSGIClient._run_coro`: reject when the loop is missing or not running;
otherwise submit the coroutine with `run_coroutine_threadsafe` and block on its
future.  A coroutine is embedded as its outcome (`Except`); the second
component records whether the coroutine was actually dispatched onto the
loop. -/
def run_coro {ε α : Type} (st : LoopState) (coro : Except ε α) :
    Except (BridgeError ε) α × Bool :=
  match st with
  | .notCreated => (.error .loopNotCreated, false)
  | .stopped => (.error .loopNotRunning, false)
  | .running =>
    match coro with
    | .ok a => (.ok a, true)
    | .error e => (.error (.coro e), true)

/-- The observable outcome of one synchronous `_WSGIClient` call: the returned
value or raised error, whether the temporary `httpx.AsyncClient` was
constructed, whether the request coroutine was dispatched, and whether the
client's `aclose()` actually ran before the call returned. -/
structure BridgeCall (ε α : Type) where
  result : Except (BridgeError ε) α
  clientCreated : Bool
  requestDispatched : Bool
  clientClosed : Bool

/-- The body shared by `_WSGIClient.get` and `_WSGIClient.post`: enter the
`_httpx_client` context manager (which constructs a fresh `httpx.AsyncClient`
unconditionally), `_run_coro` the request, and in the `finally` block
`_run_coro(client.aclose())` — whose own `ValueError`, when the loop is not
running, replaces the body's outcome per `try`/`finally` semantics, leaving the
client unclosed. -/
def WSGIClient.request {ε α : Type} (st : LoopState) (reqCoro : Except ε α) :
    BridgeCall ε α :=
  let body := run_coro st reqCoro
  let closeRun := run_coro st (Except.ok () : Except ε Unit)
  match closeRun.1 with
  | .ok _ =>
    { result := body.1, clientCreated := true,
      requestDispatched := body.2, clientClosed := closeRun.2 }
  | .error e2 =>
    { result := .error e2, clientCreated := true,
      requestDispatched := body.2, clientClosed := closeRun.2 }

/-- `_WSGIClient.get`. -/
def WSGIClient.get {ε α : Type} (st : LoopState) (reqCoro : Except ε α) :
    BridgeCall ε α :=
  WSGIClient.request st reqCoro

/-- `_WSGIClient.post`. -/
def WSGIClient.post {ε α : Type} (st : LoopState) (reqCoro : Except ε α) :
    BridgeCall ε α :=
  WSGIClient.request st reqCoro

/- ### Theorems -/

/-- C1: `get_latest` on a Flow Run Snapshot never mutates the original
instance — in the state-passing embedding of the method call, the receiver
returned after a successful call has the same identifier, name, parent flow
identifier, state, and child-run map as before the call. -/
theorem get_latest_does_not_mutate (v : FlowRunView)
    (resp : Option (List FlowRunData)) (vafter vnew : FlowRunView)
    (h : v.get_latest_call resp = .ok (vafter, vnew)) :
    vafter.flow_run_id = v.flow_run_id ∧ vafter.name = v.name ∧
    vafter.flow_id = v.flow_id ∧ vafter.state = v.state ∧
    vafter.cached_task_runs = v.cached_task_runs := by
  unfold FlowRunView.get_latest_call at h
  cases hg : v.get_latest resp with
  | error e => rw [hg] at h; simp [Except.map] at h
  | ok v2 =>
    rw [hg] at h
    simp [Except.map] at h
    rw [← h.1]
    exact ⟨rfl, rfl, rfl, rfl, rfl⟩

/-- C1 witness: the refresh of the test fixture snapshot against the
`FLOW_RUN_DATA_2` response succeeds and leaves the original untouched. -/
theorem get_latest_does_not_mutate_witness :
    FlowRunView.get_latest_call sampleView (some [flowRunData2]) =
      .ok (sampleView, sampleView2) ∧
    sampleView.flow_run_id = sampleView.flow_run_id ∧
    sampleView.name = sampleView.name ∧
    sampleView.flow_id = sampleView.flow_id ∧
    sampleView.state = sampleView.state ∧
    sampleView.cached_task_runs = sampleView.cached_task_runs :=
  ⟨rfl, get_latest_does_not_mutate sampleView (some [flowRunData2])
    sampleView sampleView2 rfl⟩

/-- C2: when the fresh lookup validates to a single record whose state
decodes, `get_latest` returns a new snapshot whose top-level fields come from
the freshly fetched record and whose child-run map is exactly the original's
(same entries, carried forward — `get_latest` consults no task-run query at
all). -/
theorem get_latest_refreshes (v : FlowRunView)
    (resp : Option (List FlowRunData)) (d : FlowRunData) (st : RunState)
    (hq : query_for_flow_run resp = .ok d)
    (hs : deserialize_state d.serialized_state = some st) :
    v.get_latest resp =
      .ok { flow_run_id := d.id, name := d.name, flow_id := d.flow_id,
            state := st, cached_task_runs := v.cached_task_runs } := by
  simp [FlowRunView.get_latest, hq, FlowRunView.from_flow_run_data, hs]

/-- C2 witness: refreshing the fixture snapshot (one cached child) against the
`FLOW_RUN_DATA_2` response yields fields of the fresh record over the original
child map. -/
theorem get_latest_refreshes_witness :
    FlowRunView.get_latest sampleView (some [flowRunData2]) =
      .ok { flow_run_id := flowRunData2.id, name := flowRunData2.name,
            flow_id := flowRunData2.flow_id,
            state := { kind := .Success, message := "state-2", result := none },
            cached_task_runs := sampleView.cached_task_runs } :=
  get_latest_refreshes sampleView (some [flowRunData2]) flowRunData2
    { kind := .Success, message := "state-2", result := none } rfl rfl

/-- C3: a snapshot constructed with the load-static-children option has a
child map containing exactly the task-runs of the bulk query whose decoded
state is terminal, keyed by their identifiers; every task-run whose decoded
state is non-terminal is absent. -/
theorem load_static_children_exactly_terminal
    (flowResp : Option (List FlowRunData)) (tasks : List TaskRunData)
    (v : FlowRunView)
    (h : FlowRunView.from_flow_run_id flowResp (some tasks) true = .ok v) :
    ∀ k trv, ((k, trv) ∈ v.cached_task_runs ↔
      (k = trv.task_run_id ∧ trv.state.isFinished = true ∧
        ∃ d, d ∈ tasks ∧ TaskRunView.from_task_run_data d = some trv)) := by
  have hv : v.cached_task_runs = load_static_task_runs tasks := by
    cases hq : query_for_flow_run flowResp with
    | error e => simp [FlowRunView.from_flow_run_id, hq] at h
    | ok d =>
      cases hs : deserialize_state d.serialized_state with
      | none =>
        simp [FlowRunView.from_flow_run_id, hq,
          FlowRunView.from_flow_run_data, hs] at h
      | some st =>
        simp [FlowRunView.from_flow_run_id, hq,
          FlowRunView.from_flow_run_data, hs] at h
        subst h
        rfl
  intro k trv
  rw [hv]
  unfold load_static_task_runs
  rw [List.mem_map]
  constructor
  · rintro ⟨a, ha, heq⟩
    rw [List.mem_filter] at ha
    obtain ⟨hfm, hfin⟩ := ha
    rw [List.mem_filterMap] at hfm
    obtain ⟨d, hd, hda⟩ := hfm
    injection heq with h1 h2
    subst h2
    subst h1
    exact ⟨rfl, hfin, d, hd, hda⟩
  · rintro ⟨hk, hfin, d, hd, hda⟩
    subst hk
    refine ⟨trv, ?_, rfl⟩
    rw [List.mem_filter]
    exact ⟨List.mem_filterMap.mpr ⟨d, hd, hda⟩, hfin⟩

/-- C3 witness: constructed from the test fixtures (one terminal, one running
task-run), the fixture snapshot's child map holds the terminal one. -/
theorem load_static_children_exactly_terminal_witness :
    (("task-run-id-1", sampleTaskRunView) ∈ sampleView.cached_task_runs ↔
      ("task-run-id-1" = sampleTaskRunView.task_run_id ∧
        sampleTaskRunView.state.isFinished = true ∧
        ∃ d, d ∈ [taskRunDataFinished, taskRunDataRunning] ∧
          TaskRunView.from_task_run_data d = some sampleTaskRunView)) :=
  load_static_children_exactly_terminal (some [flowRunData1])
    [taskRunDataFinished, taskRunDataRunning] sampleView rfl
    "task-run-id-1" sampleTaskRunView

/-- C4: validation of the flow-run lookup response is a total case analysis —
a missing top-level key fails with the bad-result error, an empty result list
with the not-found error, a list of two or more with the multiple-results
error carrying the exact count, and a singleton is unwrapped and returned
unchanged. -/
theorem query_for_flow_run_cases (α : Type) :
    (query_for_flow_run (none : Option (List α)) = .error .badResult) ∧
    (query_for_flow_run (some ([] : List α)) = .error .notFound) ∧
    (∀ l : List α, 2 ≤ l.length →
      query_for_flow_run (some l) = .error (.multipleFound l.length)) ∧
    (∀ x : α, query_for_flow_run (some [x]) = .ok x) := by
  refine ⟨rfl, rfl, ?_, fun x => rfl⟩
  intro l hl
  match l, hl with
  | x :: y :: rest, _ => rfl

/-- C4 witness: the two-element response `[1, 2]` fails with the
multiple-results error reporting the count 2. -/
theorem query_for_flow_run_cases_witness :
    query_for_flow_run (some [(1 : Nat), 2]) =
      .error (.multipleFound ([(1 : Nat), 2]).length) :=
  (query_for_flow_run_cases Nat).2.2.1 [1, 2] (by decide)

/-- C5: from a singleton lookup response whose serialized state decodes,
snapshot construction succeeds and the snapshot's identifier, name, parent
flow identifier and (eagerly decoded) state match the input record's fields;
state is a plain stored field afterwards, so reads cannot fail. -/
theorem from_single_result_matches (d : FlowRunData) (st : RunState)
    (taskResp : Option (List TaskRunData))
    (hs : deserialize_state d.serialized_state = some st) :
    FlowRunView.from_flow_run_id (some [d]) taskResp false =
      .ok { flow_run_id := d.id, name := d.name, flow_id := d.flow_id,
            state := st, cached_task_runs := [] } := by
  unfold FlowRunView.from_flow_run_id
  simp [query_for_flow_run, FlowRunView.from_flow_run_data, hs]

/-- C5 witness: construction from the `FLOW_RUN_DATA_1` fixture (no static
children) matches the record's fields with the decoded Success state. -/
theorem from_single_result_matches_witness :
    FlowRunView.from_flow_run_id (some [flowRunData1]) none false =
      .ok { flow_run_id := flowRunData1.id, name := flowRunData1.name,
            flow_id := flowRunData1.flow_id,
            state := { kind := .Success, message := "state-1", result := none },
            cached_task_runs := [] } :=
  from_single_result_matches flowRunData1
    { kind := .Success, message := "state-1", result := none } none rfl

/-- C6: the `FlowRunCreate` payload built by `create_flow_run` carries as tags
exactly the set union of the flow's own tags and the caller-supplied extra
tags, with duplicates collapsed, and omitted parameters or context are
submitted as empty mappings. -/
theorem create_flow_run_tags_and_defaults (flow : Prefect.Flow) (fid : String)
    (parameters context : Option (List (String × String)))
    (extra_tags : Option (List String)) (ptr : Option String) :
    (∀ t, t ∈ (OrionClient.flow_run_create_data flow fid parameters context
        extra_tags ptr).tags ↔ (t ∈ flow.tags ∨ t ∈ extra_tags.getD [])) ∧
    (OrionClient.flow_run_create_data flow fid parameters context
        extra_tags ptr).tags.Nodup ∧
    (parameters = none → (OrionClient.flow_run_create_data flow fid parameters
        context extra_tags ptr).parameters = []) ∧
    (context = none → (OrionClient.flow_run_create_data flow fid parameters
        context extra_tags ptr).context = []) := by
  refine ⟨fun t => ?_, ?_, ?_, ?_⟩
  · simp [OrionClient.flow_run_create_data, List.mem_dedup, List.mem_append]
  · simp [OrionClient.flow_run_create_data, List.nodup_dedup]
  · rintro rfl; rfl
  · rintro rfl; rfl

/-- Fixture: a flow with overlapping tags for the tag-union witness. -/
def sampleFlow : Prefect.Flow :=
  { name := "flow", version := "1", tags := ["a", "b"], parameters := [] }

/-- C6 witness: for a flow tagged `a, b` and extra tags `b, c`, the submitted
tag `c` is present by the union characterisation, and omitted parameters are
the empty mapping. -/
theorem create_flow_run_tags_and_defaults_witness :
    ("c" ∈ (OrionClient.flow_run_create_data sampleFlow "fid" none none
        (some ["b", "c"]) none).tags ↔
      ("c" ∈ sampleFlow.tags ∨
        "c" ∈ (some ["b", "c"] : Option (List String)).getD [])) ∧
    (OrionClient.flow_run_create_data sampleFlow "fid" none none
        (some ["b", "c"]) none).parameters = [] :=
  ⟨(create_flow_run_tags_and_defaults sampleFlow "fid" none none
      (some ["b", "c"]) none).1 "c",
    (create_flow_run_tags_and_defaults sampleFlow "fid" none none
      (some ["b", "c"]) none).2.2.1 rfl⟩

/-- C7: when the backend answers the flow lookup with HTTP 404 (the not-found
status), `read_flow` fails with the status error carrying 404 — the
`raise_for_status` in `OrionClient.get` surfaces the backend's not-found
response as an error instead of returning a descriptor. -/
theorem read_flow_not_found {β : Type} (r : Response β) (h : r.status = 404) :
    OrionClient.read_flow r = .error (.httpStatus 404) := by
  simp [OrionClient.read_flow, OrionClient.get, raise_for_status, h]

/-- C7 witness: a concrete 404 response to the flow lookup makes `read_flow`
fail with the 404 status error. -/
theorem read_flow_not_found_witness :
    OrionClient.read_flow ({ status := 404, body := (0 : Nat) }) =
      .error (.httpStatus 404) :=
  read_flow_not_found { status := 404, body := (0 : Nat) } rfl

/-- C9: every Bridge call made while the background event loop is not yet
created, or after it has stopped, fails with the corresponding unavailable
`ValueError` and never dispatches the request coroutine onto the loop. -/
theorem wsgi_unavailable_rejects {ε α : Type} (coro : Except ε α) :
    ((WSGIClient.get LoopState.notCreated coro).result =
        .error .loopNotCreated ∧
      (WSGIClient.get LoopState.notCreated coro).requestDispatched = false) ∧
    ((WSGIClient.get LoopState.stopped coro).result = .error .loopNotRunning ∧
      (WSGIClient.get LoopState.stopped coro).requestDispatched = false) ∧
    ((WSGIClient.post LoopState.notCreated coro).result =
        .error .loopNotCreated ∧
      (WSGIClient.post LoopState.notCreated coro).requestDispatched = false) ∧
    ((WSGIClient.post LoopState.stopped coro).result = .error .loopNotRunning ∧
      (WSGIClient.post LoopState.stopped coro).requestDispatched = false) :=
  ⟨⟨rfl, rfl⟩, ⟨rfl, rfl⟩, ⟨rfl, rfl⟩, ⟨rfl, rfl⟩⟩

/-- C8 counterexample: a `get` call made while the loop is stopped constructs
the temporary client but returns without closing it — the `finally` block's
`_run_coro(client.aclose())` itself raises, so `aclose` never runs.  This
refutes the claim that the client is released on every exit path of every
call. -/
theorem wsgi_close_skipped_counterexample :
    (WSGIClient.get LoopState.stopped
        (Except.ok 0 : Except Unit Nat)).clientCreated = true ∧
    (WSGIClient.get LoopState.stopped
        (Except.ok 0 : Except Unit Nat)).clientClosed = false :=
  ⟨rfl, rfl⟩

/-- C8 (amended): every `get` or `post` call constructs a fresh temporary
client, and whenever the background event loop is running the client is closed
before the call returns on both exit paths — request success and request
error; when the loop is unavailable the call fails without closing the client
it constructed. -/
theorem wsgi_client_closed_when_running {ε α : Type} (coro : Except ε α) :
    (WSGIClient.get LoopState.running coro).clientCreated = true ∧
    (WSGIClient.get LoopState.running coro).clientClosed = true ∧
    (WSGIClient.post LoopState.running coro).clientCreated = true ∧
    (WSGIClient.post LoopState.running coro).clientClosed = true := by
  cases coro <;>
    simp [WSGIClient.get, WSGIClient.post, WSGIClient.request, run_coro]

/-- C10: for every 2xx response to `create_flow` or `create_flow_run`, an
absent or falsy `id` field fails with the malformed-response error (reached
before any UUID parsing), while a truthy `id` that is not a valid UUID string
fails at UUID parsing instead. -/
theorem create_id_validation (resp : Response (Option String))
    (h2 : 200 ≤ resp.status) (h3 : resp.status < 300) :
    ((resp.body = none ∨ resp.body = some "") →
      (OrionClient.create_flow resp = .error .malformedResponse ∧
        OrionClient.create_flow_run resp = .error .malformedResponse)) ∧
    (∀ s, resp.body = some s → s ≠ "" → isUUIDHex s = false →
      (OrionClient.create_flow resp = .error .invalidUUID ∧
        OrionClient.create_flow_run resp = .error .invalidUUID)) := by
  have hp : raise_for_status resp.status = .ok () := by
    unfold raise_for_status
    rw [if_neg (by omega)]
  constructor
  · rintro (hb | hb) <;>
      simp [OrionClient.create_flow, OrionClient.create_flow_run,
        OrionClient.post, hp, parse_id_field, hb]
  · intro s hb hne hux
    simp [OrionClient.create_flow, OrionClient.create_flow_run,
      OrionClient.post, hp, parse_id_field, hb, hne, hux]

/-- C10 witness: a 201 response whose id field is the non-empty, non-UUID
string `xyz` makes both operations fail at UUID parsing. -/
theorem create_id_validation_witness :
    OrionClient.create_flow ({ status := 201, body := some "xyz" }) =
      .error .invalidUUID ∧
    OrionClient.create_flow_run ({ status := 201, body := some "xyz" }) =
      .error .invalidUUID :=
  (create_id_validation { status := 201, body := some "xyz" }
      (by decide) (by decide)).2 "xyz" rfl (by decide) (by decide)
